import Mathlib

/-!
Shallow embedding of the MEMENTO camera controller (`src/code.py`):
the gallery state machine, the image decode pipeline, the capture
guards and the timelapse scheduler, with theorems checking the
specification's claims against the code.

Effects that do not touch the modelled state (printing, tones, display
refreshes, garbage collection) are elided; status-overlay messages are
modelled as an explicit list of `Msg` values.  Removable-storage
availability (`is_sd_card_available`) and the `/sd` directory listing
are passed in as parameters, since the code only polls them.
-/

namespace AdafruitCamera

/-- Status overlay messages shown by `pycam.display_message` calls. -/
inductive Msg
  | saved
  | failed
  | previewOnly
  | snap
  | noPhotos
  | galleryModeMsg
  | cameraModeMsg
  | sdRemoved
  | noImage
deriving DecidableEq, Repr

/-! ### Python string primitives used by the code -/

/-- Python `str.lower()` (ASCII range, which is all the code relies on). -/
def pyLower (s : String) : String :=
  String.mk (s.data.map Char.toLower)

/-- Python `str.endswith(suffix)`. -/
def pyEndsWith (s suffix : String) : Bool :=
  List.isSuffixOf suffix.data s.data

/-- Code-point lexicographic `<=` on character lists: the order Python
uses to compare `str` values (and hence the order of `list.sort()`). -/
def charListLe : List Char → List Char → Bool
  | [], _ => true
  | _ :: _, [] => false
  | a :: as, b :: bs =>
    if a.val < b.val then true
    else if b.val < a.val then false
    else charListLe as bs

/-- Python string `<=` (code-point lexicographic). -/
def strLeB (a b : String) : Bool :=
  charListLe a.data b.data

/-- Insert into a sorted list, keeping `strLeB` order. -/
def insertSorted (x : String) : List String → List String
  | [] => [x]
  | y :: ys => if strLeB x y then x :: y :: ys else y :: insertSorted x ys

/-- Ascending sort by Python string order: models `list.sort()` on the
gallery filename list. -/
def sortStrs : List String → List String
  | [] => []
  | x :: xs => insertSorted x (sortStrs xs)

/-! ### Gallery scan (`scan_gallery_images`) -/

/-- The case-insensitive extension filter of `scan_gallery_images`:
keep a file when its lowercased name ends in `.jpg`, `.jpeg` or `.gif`. -/
def isImageFile (file : String) : Bool :=
  let file_lower := pyLower file
  pyEndsWith file_lower ".jpg" || pyEndsWith file_lower ".jpeg" ||
    pyEndsWith file_lower ".gif"

/-- Model of `scan_gallery_images`: with no SD card the scan returns `[]`;
otherwise it filters the `/sd` listing for image extensions
(case-insensitively) and sorts the result by name. -/
def scan_gallery_images (sd_available : Bool) (listing : List String) :
    List String :=
  if sd_available = false then []
  else sortStrs (listing.filter isImageFile)

/-! ### Gallery state and its operations -/

/-- The module-level gallery state of `code.py`: `gallery_mode`,
`gallery_images`, `gallery_index` (a Python `int`, hence `Int`) and
`gallery_zoom_level`. -/
structure GalleryState where
  gallery_mode : Bool
  gallery_images : List String
  gallery_index : Int
  gallery_zoom_level : Nat
deriving DecidableEq, Repr

/-- The initial gallery state set by the module-level assignments. -/
def initialGalleryState : GalleryState :=
  { gallery_mode := false, gallery_images := [], gallery_index := 0,
    gallery_zoom_level := 1 }

/-- Model of `exit_gallery_mode`: clears `gallery_mode`, empties the image list
and resets the index (the zoom level is left as-is; display restoration
is an elided effect). -/
def exit_gallery_mode (st : GalleryState) : GalleryState :=
  { st with gallery_mode := false, gallery_images := [], gallery_index := 0 }

/-- Model of `enter_gallery_mode`: sets `gallery_mode`, resets index and zoom,
scans for images; on an empty scan it shows "No Photos" and calls
`exit_gallery_mode`, otherwise it shows "Gallery Mode" and displays
image 0. -/
def enter_gallery_mode (sd_available : Bool) (listing : List String)
    (st : GalleryState) : GalleryState × List Msg :=
  let st1 := { st with gallery_mode := true, gallery_index := 0,
                       gallery_zoom_level := 1 }
  let images := scan_gallery_images sd_available listing
  let st2 := { st1 with gallery_images := images }
  if images.isEmpty then
    (exit_gallery_mode st2, [Msg.noPhotos])
  else
    (st2, [Msg.galleryModeMsg])

/-- Model of `gallery_zoom_in`: decrement the zoom level unless already at 1
(the redisplay is an elided effect). -/
def gallery_zoom_in (st : GalleryState) : GalleryState :=
  if st.gallery_zoom_level > 1 then
    { st with gallery_zoom_level := st.gallery_zoom_level - 1 }
  else st

/-- Model of `gallery_zoom_out`: increment the zoom level unless already at 3. -/
def gallery_zoom_out (st : GalleryState) : GalleryState :=
  if st.gallery_zoom_level < 3 then
    { st with gallery_zoom_level := st.gallery_zoom_level + 1 }
  else st

/-- Model of `gallery_navigate(direction)`: no-op on an empty list; otherwise
add `direction` to the index and wrap (`< 0` to `len - 1`, `>= len`
to `0`). -/
def gallery_navigate (direction : Int) (st : GalleryState) : GalleryState :=
  if st.gallery_images.isEmpty then st
  else
    let idx := st.gallery_index + direction
    let n : Int := st.gallery_images.length
    let idx2 := if idx < 0 then n - 1 else if n ≤ idx then 0 else idx
    { st with gallery_index := idx2 }

/-- Iterate `k` successive `gallery_navigate(+1)` calls. -/
def navigate_iter (k : Nat) (st : GalleryState) : GalleryState :=
  match k with
  | 0 => st
  | k + 1 => navigate_iter k (gallery_navigate 1 st)

/-! ### Image decode pipeline (`load_jpeg_file`, `load_image_file`,
`display_current_image`) -/

/-- A decoded raster: only the dimensions matter to the control code. -/
structure Bitmap where
  width : Nat
  height : Nat
deriving DecidableEq, Repr

/-- Model of a `jpegio.JpegDecoder` instance: `openDims path` is the
`(width, height)` returned by `jpeg_decoder.open(path)`, or `none` when
`open` raises; `decodeOk s` tells whether `jpeg_decoder.decode(bitmap,
scale=s)` on the opened file succeeds (the opened file is part of the
decoder's state). -/
structure JpegDecoderModel where
  openDims : String → Option (Nat × Nat)
  decodeOk : Nat → Bool

/-- The `scale_factors` table of `load_jpeg_file`
("Corresponding to scale 0, 1, 2, 3"). -/
def scale_factors : List Nat := [1, 2, 4, 8]

/-- Model of `get_current_scale_factor`: returns `gallery_zoom_level` itself. -/
def get_current_scale_factor (gallery_zoom_level : Nat) : Nat :=
  gallery_zoom_level

/-- Model of `load_jpeg_file`: `None` when the decoder is unavailable; otherwise
open `/sd/<filename>` for the native dimensions, take
`scale = get_current_scale_factor()`, look up
`scale_factor = scale_factors[scale]`, allocate a bitmap of the
floor-divided dimensions and decode at that scale.  Any exception
(failed open, out-of-range index, failed decode) is caught and yields
`None`. -/
def load_jpeg_file (jpeg_decoder : Option JpegDecoderModel)
    (gallery_zoom_level : Nat) (filename : String) : Option Bitmap :=
  match jpeg_decoder with
  | none => none
  | some dec =>
    match dec.openDims ("/sd/" ++ filename) with
    | none => none
    | some (original_width, original_height) =>
      let scale := get_current_scale_factor gallery_zoom_level
      match scale_factors[scale]? with
      | none => none
      | some scale_factor =>
        let scaled_width := original_width / scale_factor
        let scaled_height := original_height / scale_factor
        if dec.decodeOk scale then
          some { width := scaled_width, height := scaled_height }
        else none

/-- External decode collaborators of `load_image_file`: the (optional)
JPEG decoder and `load_gif_file`'s `adafruit_imageload` result
(`none` when loading raises; the `Bool` is the palette). -/
structure PipelineEnv where
  jpeg_decoder : Option JpegDecoderModel
  gif_load : String → Option Bitmap

/-- Model of `load_image_file`: dispatch by lowercased extension; JPEGs carry no
palette, GIFs do, anything else is unsupported and yields
`(None, None)`. -/
def load_image_file (env : PipelineEnv) (gallery_zoom_level : Nat)
    (filename : String) : Option Bitmap × Bool :=
  let filename_lower := pyLower filename
  if pyEndsWith filename_lower ".jpg" || pyEndsWith filename_lower ".jpeg" then
    (load_jpeg_file env.jpeg_decoder gallery_zoom_level filename, false)
  else if pyEndsWith filename_lower ".gif" then
    match env.gif_load filename with
    | some bm => (some bm, true)
    | none => (none, false)
  else (none, false)

/-- Python sequence indexing `l[i]` for `-len l ≤ i` (negative indices
count from the end); out-of-range positive indices are guarded before
use in the code. -/
def pyIndex (l : List String) (i : Int) : String :=
  if i < 0 then l.getD (l.length - (-i).toNat) ""
  else l.getD i.toNat ""

/-- What `display_current_image` ends up doing. -/
inductive DisplayOutcome
  | noImage
  | shown (width height : Nat) (x y : Int)
  | fallback (filename : String)
deriving DecidableEq, Repr

/-- Python floor division `//` on integers. -/
def pyFloorDiv (a b : Int) : Int :=
  Int.fdiv a b

/-- The centring rule of `display_current_image`:
`(disp - img) // 2` when the image fits, else `-(img - disp) // 2`. -/
def center_offset (disp img : Nat) : Int :=
  if img ≤ disp then pyFloorDiv ((disp : Int) - (img : Int)) 2
  else pyFloorDiv (-((img : Int) - (disp : Int))) 2

/-- Model of `display_current_image`: "No Image" on an empty list or an index
past the end; a metadata fallback when the load yields no bitmap;
otherwise the bitmap is shown centred on the 240x240 display. -/
def display_current_image (env : PipelineEnv) (st : GalleryState) :
    DisplayOutcome :=
  if st.gallery_images.isEmpty ∨ (st.gallery_images.length : Int) ≤ st.gallery_index then
    DisplayOutcome.noImage
  else
    let current_file := pyIndex st.gallery_images st.gallery_index
    match load_image_file env st.gallery_zoom_level current_file with
    | (none, _) => DisplayOutcome.fallback current_file
    | (some bm, _) =>
      DisplayOutcome.shown bm.width bm.height
        (center_offset 240 bm.width) (center_offset 240 bm.height)

/-! ### Guarded capture (`safe_capture_operation`) and the capture
handlers -/

/-- The result of invoking a capture callable: `Except.error` models a
raised `TypeError/RuntimeError/OSError`; on success the payload is the
callable's return value together with the number of files it wrote. -/
abbrev CaptureFun := Except Unit (Bool × Nat)

/-- Model of `safe_capture_operation`: with no SD card, show "Preview Only" and
return `False` without invoking the capture callable (so nothing is
written); otherwise invoke it, showing "Saved!" on success and
"Failed" (returning `False`) when it raises. -/
def safe_capture_operation (sd_available : Bool) (capture_func : CaptureFun) :
    Bool × Nat × List Msg :=
  if sd_available = false then (false, 0, [Msg.previewOnly])
  else
    match capture_func with
    | Except.ok (r, files) => (r, files, [Msg.saved])
    | Except.error _ => (false, 0, [Msg.failed])

/-- Environment of a stop-motion shutter press: SD availability, the
identity of the current live frame (`pycam.capture_into_bitmap` copies
it into `last_frame`), and the behaviour of `pycam.capture_jpeg`. -/
structure StopMotionEnv where
  sd_available : Bool
  live_frame : Nat
  capture_jpeg : CaptureFun

/-- The state a stop-motion capture mutates: the contents of the
persistent last-frame buffer (as an abstract frame identity) and the
`stop_motion_frame` counter. -/
structure StopMotionState where
  last_frame : Nat
  stop_motion_frame : Nat
deriving DecidableEq, Repr

/-- Model of `handle_stop_motion_capture`: unconditionally capture the live
frame into `last_frame` and bump the counter, then show "Snap!" and run
the guarded `capture_jpeg`.  Returns the new state, the value
`safe_capture_operation` returned, the number of files written and the
shown messages. -/
def handle_stop_motion_capture (env : StopMotionEnv) (st : StopMotionState) :
    StopMotionState × Bool × Nat × List Msg :=
  let st1 : StopMotionState :=
    { last_frame := env.live_frame,
      stop_motion_frame := st.stop_motion_frame + 1 }
  let r := safe_capture_operation env.sd_available env.capture_jpeg
  (st1, r.1, r.2.1, Msg.snap :: r.2.2)

/-! ### Timelapse (`handle_timelapse_mode`) -/

/-- The module-level timelapse state: `timelapse_remaining` is `None`
exactly when the scheduler is stopped; `timelapse_timestamp` is the
absolute next-fire time. -/
structure TimelapseState where
  timelapse_remaining : Option Int
  timelapse_timestamp : Int
deriving DecidableEq, Repr

/-- One tick's environment for `handle_timelapse_mode`: the clock, the
configured interval `pycam.timelapse_rates[pycam.timelapse_rate]`, SD
availability and the behaviour of `pycam.capture_jpeg`. -/
structure TimelapseEnv where
  now : Int
  rate : Int
  sd_available : Bool
  capture_jpeg : CaptureFun

/-- Model of `handle_timelapse_mode`: when stopped, just show "STOP"; when
running, recompute `timelapse_remaining = timelapse_timestamp - now`,
and if it is `<= 0`, show "Snap!", run the guarded capture, and
reschedule `timelapse_timestamp = now + rate + 1` whatever the capture
outcome.  (Label/brightness/preview updates are elided effects.)
Returns the new state, files written and messages. -/
def handle_timelapse_mode (env : TimelapseEnv) (st : TimelapseState) :
    TimelapseState × Nat × List Msg :=
  match st.timelapse_remaining with
  | none => (st, 0, [])
  | some _ =>
    let remaining := st.timelapse_timestamp - env.now
    let st1 := { st with timelapse_remaining := some remaining }
    if remaining ≤ 0 then
      let r := safe_capture_operation env.sd_available env.capture_jpeg
      ({ st1 with timelapse_timestamp := env.now + env.rate + 1 },
       r.2.1, Msg.snap :: r.2.2)
    else (st1, 0, [])

/-! ### Animated GIF recording (`handle_gif_capture`) -/

/-- The inner `while (i < 15) or not pycam.shutter_button.value` loop
of `capture_animated_gif`, with `value t` the raw (active-low) shutter
GPIO level at the `t`-th condition check; `i` counts frames already
captured, so the `t`-th check sees `i = t`.  `fuel` bounds the
unbounded Python loop; when it is exhausted the current count is
returned. -/
def gif_loop_go (value : Nat → Bool) : Nat → Nat → Nat
  | 0, i => i
  | fuel + 1, i =>
    if decide (i < 15) || !value i then gif_loop_go value fuel (i + 1)
    else i

/-- Outcome of `capture_animated_gif`: frame count and how many times
the output file is closed (`f.close()` runs once, after the loop). -/
structure GifCaptureResult where
  frames : Nat
  file_closes : Nat
deriving DecidableEq, Repr

/-- Model of `capture_animated_gif`: run the inner recording loop from `i = 0`,
then close the file exactly once. -/
def capture_animated_gif (value : Nat → Bool) (fuel : Nat) :
    GifCaptureResult :=
  { frames := gif_loop_go value fuel 0, file_closes := 1 }

/-! ### Button routing (`handle_select_button`, `handle_all_buttons`) -/

/-- The debounced edges read each tick (`pycam.*.fell`,
`pycam.shutter.short_count`). -/
structure Buttons where
  up : Bool
  down : Bool
  left : Bool
  right : Bool
  select : Bool
  ok : Bool
  shutter_short_count : Nat
deriving DecidableEq, Repr

/-- Model of `handle_select_button`: in "LAPS" mode it advances
`pycam.timelapse_submode` (external state) and leaves the gallery
alone; otherwise it toggles `gallery_mode`, calling
`enter_gallery_mode` or `exit_gallery_mode` accordingly. -/
def handle_select_button (mode_text : String) (sd_available : Bool)
    (listing : List String) (st : GalleryState) : GalleryState × List Msg :=
  if mode_text = "LAPS" then (st, [])
  else
    let st1 := { st with gallery_mode := !st.gallery_mode }
    if st1.gallery_mode then enter_gallery_mode sd_available listing st1
    else (exit_gallery_mode st1, [Msg.cameraModeMsg])

/-- Model of `handle_gallery_buttons`: force-exit with a notice when the SD card
vanished; otherwise Left/Right navigate, Select runs
`handle_select_button`, a short shutter press exits, Up/Down zoom. -/
def handle_gallery_buttons (btns : Buttons) (mode_text : String)
    (sd_available : Bool) (listing : List String) (st : GalleryState) :
    GalleryState × List Msg :=
  if sd_available = false then (exit_gallery_mode st, [Msg.sdRemoved])
  else
    let st1 := if btns.left then gallery_navigate (-1) st else st
    let st2 := if btns.right then gallery_navigate 1 st1 else st1
    let r3 := if btns.select then
        handle_select_button mode_text sd_available listing st2
      else (st2, [])
    let st4 := if btns.shutter_short_count ≠ 0 then exit_gallery_mode r3.1
      else r3.1
    let st5 := if btns.up then gallery_zoom_in st4 else st4
    let st6 := if btns.down then gallery_zoom_out st5 else st5
    (st6, r3.2)

/-- Model of `handle_camera_buttons`, restricted to the gallery state it can
touch: the shutter, navigation and OK handlers act on capture paths,
settings and the timelapse toggle, none of which is part of
`GalleryState`; only Select reaches the gallery. -/
def handle_camera_buttons (btns : Buttons) (mode_text : String)
    (sd_available : Bool) (listing : List String) (st : GalleryState) :
    GalleryState × List Msg :=
  if btns.select then handle_select_button mode_text sd_available listing st
  else (st, [])

/-- Model of `handle_all_buttons`: route to the gallery handlers when
`gallery_mode` is set, else to the camera handlers. -/
def handle_all_buttons (btns : Buttons) (mode_text : String)
    (sd_available : Bool) (listing : List String) (st : GalleryState) :
    GalleryState × List Msg :=
  if st.gallery_mode then
    handle_gallery_buttons btns mode_text sd_available listing st
  else handle_camera_buttons btns mode_text sd_available listing st

/-! ### Concrete instances used by counterexamples and witnesses -/

/-- A JPEG decoder model for a valid 320x240 file `/sd/photo.jpg`
(open succeeds, decode succeeds at every scale). -/
def c1_jpeg_decoder : JpegDecoderModel where
  openDims := fun p => if p = "/sd/photo.jpg" then some (320, 240) else none
  decodeOk := fun _ => true

/-- A stop-motion press with the SD card absent, a live frame distinct
from the buffer contents, and a capture callable that would succeed. -/
def c2_env : StopMotionEnv :=
  { sd_available := false, live_frame := 1, capture_jpeg := Except.ok (true, 1) }

/-- A stop-motion state whose last-frame buffer holds frame `0`. -/
def c2_st : StopMotionState :=
  { last_frame := 0, stop_motion_frame := 0 }

/-- Buttons with only a Select edge this tick. -/
def selectOnlyButtons : Buttons :=
  { up := false, down := false, left := false, right := false,
    select := true, ok := false, shutter_short_count := 0 }

/-! ### Helper lemmas (shared) -/

/-- Navigation never changes which mode is active. -/
theorem gallery_navigate_gallery_mode (d : Int) (st : GalleryState) :
    (gallery_navigate d st).gallery_mode = st.gallery_mode := by
  unfold gallery_navigate
  split <;> rfl

/-- Zooming in never changes which mode is active. -/
theorem gallery_zoom_in_gallery_mode (st : GalleryState) :
    (gallery_zoom_in st).gallery_mode = st.gallery_mode := by
  unfold gallery_zoom_in
  split <;> rfl

/-- Zooming out never changes which mode is active. -/
theorem gallery_zoom_out_gallery_mode (st : GalleryState) :
    (gallery_zoom_out st).gallery_mode = st.gallery_mode := by
  unfold gallery_zoom_out
  split <;> rfl

/-- Exiting always clears the active flag. -/
theorem exit_gallery_mode_gallery_mode (st : GalleryState) :
    (exit_gallery_mode st).gallery_mode = false := rfl

/-- Entering leaves the session active exactly when the scan found
at least one image. -/
theorem enter_gallery_mode_gallery_mode (sd : Bool) (listing : List String)
    (st : GalleryState) :
    (enter_gallery_mode sd listing st).1.gallery_mode =
      !(scan_gallery_images sd listing).isEmpty := by
  unfold enter_gallery_mode exit_gallery_mode
  rcases h : scan_gallery_images sd listing with _ | ⟨a, as⟩ <;> simp [h]

/-- What a Select press does to the active flag: nothing in "LAPS"
mode, otherwise the session ends up active exactly when it was
inactive and the scan found images. -/
theorem handle_select_button_gallery_mode (m : String) (sd : Bool)
    (listing : List String) (st : GalleryState) :
    (handle_select_button m sd listing st).1.gallery_mode =
      if m = "LAPS" then st.gallery_mode
      else !st.gallery_mode && !(scan_gallery_images sd listing).isEmpty := by
  unfold handle_select_button
  by_cases hm : m = "LAPS"
  · simp [hm]
  · cases hgm : st.gallery_mode <;>
      simp [hm, hgm, enter_gallery_mode_gallery_mode, exit_gallery_mode]

/-! ### C7 - gallery scan filter and sort -/

/-- C7: the gallery scan keeps `.jpg`/`.jpeg`/`.gif` files
case-insensitively, drops everything else, and sorts the survivors
lexicographically: on the listing
`["a.gif", "B.JPG", "c.jpeg", "d.txt", "e.jpg"]` it returns exactly
`["B.JPG", "a.gif", "c.jpeg", "e.jpg"]`. -/
theorem c7_scan_filter_sort :
    scan_gallery_images true ["a.gif", "B.JPG", "c.jpeg", "d.txt", "e.jpg"] =
      ["B.JPG", "a.gif", "c.jpeg", "e.jpg"] := by
  decide

/-! ### C6 - zoom in/out inverse behaviour -/

/-- C6: with the zoom level in `[1,3]`, `zoom_in` then `zoom_out`
restores the state except at the bound 1 (where `zoom_in` is a no-op),
`zoom_out` then `zoom_in` restores it except at the bound 3 (where
`zoom_out` is a no-op), and both operations keep the level in
`[1,3]`. -/
theorem c6_zoom_inverse (st : GalleryState)
    (h1 : 1 ≤ st.gallery_zoom_level) (h3 : st.gallery_zoom_level ≤ 3) :
    (1 < st.gallery_zoom_level →
      gallery_zoom_out (gallery_zoom_in st) = st) ∧
    (st.gallery_zoom_level < 3 →
      gallery_zoom_in (gallery_zoom_out st) = st) ∧
    (st.gallery_zoom_level = 1 → gallery_zoom_in st = st) ∧
    (st.gallery_zoom_level = 3 → gallery_zoom_out st = st) ∧
    1 ≤ (gallery_zoom_in st).gallery_zoom_level ∧
    (gallery_zoom_in st).gallery_zoom_level ≤ 3 ∧
    1 ≤ (gallery_zoom_out st).gallery_zoom_level ∧
    (gallery_zoom_out st).gallery_zoom_level ≤ 3 := by
  obtain ⟨gm, gims, gidx, gz⟩ := st
  simp only [GalleryState.mk.injEq] at *
  interval_cases gz <;>
    simp [gallery_zoom_in, gallery_zoom_out]

/-- C6 witness: at zoom level 2 the round trips restore the state and
the bounds hold. -/
theorem c6_zoom_inverse_witness :
    gallery_zoom_out (gallery_zoom_in
      { gallery_mode := true, gallery_images := ["a.jpg"],
        gallery_index := 0, gallery_zoom_level := 2 }) =
      { gallery_mode := true, gallery_images := ["a.jpg"],
        gallery_index := 0, gallery_zoom_level := 2 } :=
  (c6_zoom_inverse
    { gallery_mode := true, gallery_images := ["a.jpg"],
      gallery_index := 0, gallery_zoom_level := 2 }
    (by decide) (by decide)).1 (by decide)

/-! ### C4 - entering the gallery never leaves an active-but-empty
session -/

/-- C4: after `enter_gallery_mode` returns, the session is active iff
the scan found at least one image; an empty scan lands back in capture
mode (inactive, empty list) with a "No Photos" notice; a non-empty scan
starts the session at index 0 and zoom level 1 with the scanned list.
In particular an active session is never empty. -/
theorem c4_enter_gallery (sd : Bool) (listing : List String)
    (st : GalleryState) :
    ((enter_gallery_mode sd listing st).1.gallery_mode = true ↔
      scan_gallery_images sd listing ≠ []) ∧
    (scan_gallery_images sd listing = [] →
      (enter_gallery_mode sd listing st).1.gallery_mode = false ∧
      (enter_gallery_mode sd listing st).1.gallery_images = [] ∧
      Msg.noPhotos ∈ (enter_gallery_mode sd listing st).2) ∧
    (scan_gallery_images sd listing ≠ [] →
      (enter_gallery_mode sd listing st).1 =
        { gallery_mode := true,
          gallery_images := scan_gallery_images sd listing,
          gallery_index := 0, gallery_zoom_level := 1 }) ∧
    ((enter_gallery_mode sd listing st).1.gallery_mode = true →
      (enter_gallery_mode sd listing st).1.gallery_images ≠ []) := by
  unfold enter_gallery_mode exit_gallery_mode
  rcases h : scan_gallery_images sd listing with _ | ⟨a, as⟩ <;> simp [h]

/-- C4 witness: entering with one eligible file activates the session
at index 0, zoom 1. -/
theorem c4_enter_gallery_witness :
    (enter_gallery_mode true ["x.jpg"] initialGalleryState).1 =
      { gallery_mode := true,
        gallery_images := scan_gallery_images true ["x.jpg"],
        gallery_index := 0, gallery_zoom_level := 1 } :=
  (c4_enter_gallery true ["x.jpg"] initialGalleryState).2.2.1 (by decide)

/-! ### C2 - stop-motion capture with storage unavailable -/

/-- C2 counterexample: with the SD card absent, a stop-motion shutter
press returns failure, writes nothing, and shows the preview-only
overlay - but the last-frame buffer is NOT left unchanged: the live
frame is captured into it before the storage guard runs, so the claim
as stated is false. -/
theorem c2_counterexample :
    (handle_stop_motion_capture c2_env c2_st).2.1 = false ∧
    (handle_stop_motion_capture c2_env c2_st).2.2.1 = 0 ∧
    Msg.previewOnly ∈ (handle_stop_motion_capture c2_env c2_st).2.2.2 ∧
    ¬ (handle_stop_motion_capture c2_env c2_st).1.last_frame =
        c2_st.last_frame := by
  decide

/-- C2 (amended): if storage is unavailable when the shutter is
short-pressed in StopMotion mode, the capture returns failure, no file
is written and the preview-only overlay is shown - but the last-frame
buffer is updated with the captured live frame and the stop-motion
frame counter is incremented (the capture into the buffer happens
before the storage guard). -/
theorem c2_stop_motion_no_storage (live : Nat) (cap : CaptureFun)
    (st : StopMotionState) :
    handle_stop_motion_capture
        { sd_available := false, live_frame := live, capture_jpeg := cap }
        st =
      ({ last_frame := live, stop_motion_frame := st.stop_motion_frame + 1 },
       false, 0, [Msg.snap, Msg.previewOnly]) := by
  simp [handle_stop_motion_capture, safe_capture_operation]

/-! ### C8 - a failed timelapse fire still reschedules -/

/-- C8: when the timelapse is running and a fire is due, the scheduler
always sets the next fire time to `now + interval + 1` and stays
running, whatever the capture outcome; a storage-unavailable fire shows
the preview-only message, a raising capture shows the failure message,
a successful capture shows the saved message. -/
theorem c8_timelapse_reschedules (env : TimelapseEnv) (st : TimelapseState)
    (r : Int) (hrun : st.timelapse_remaining = some r)
    (hdue : st.timelapse_timestamp - env.now ≤ 0) :
    (handle_timelapse_mode env st).1.timelapse_timestamp =
      env.now + env.rate + 1 ∧
    (handle_timelapse_mode env st).1.timelapse_remaining ≠ none ∧
    (env.sd_available = false →
      (handle_timelapse_mode env st).2.2 = [Msg.snap, Msg.previewOnly]) ∧
    (∀ e, env.sd_available = true → env.capture_jpeg = Except.error e →
      (handle_timelapse_mode env st).2.2 = [Msg.snap, Msg.failed]) ∧
    (∀ rv n, env.sd_available = true → env.capture_jpeg = Except.ok (rv, n) →
      (handle_timelapse_mode env st).2.2 = [Msg.snap, Msg.saved]) := by
  obtain ⟨now, rate, sd, cap⟩ := env
  simp only [handle_timelapse_mode, hrun, safe_capture_operation]
  refine ⟨?_, ?_, ?_, ?_, ?_⟩
  · simp [hdue]
  · simp [hdue]
  · intro hsd
    subst hsd
    simp [hdue]
  · intro e hsd hcap
    subst hsd
    subst hcap
    simp [hdue]
  · intro rv n hsd hcap
    subst hsd
    subst hcap
    simp [hdue]

/-- C8 witness: a due fire whose capture raises still reschedules to
`now + interval + 1`. -/
theorem c8_timelapse_reschedules_witness :
    (handle_timelapse_mode
        { now := 100, rate := 60, sd_available := true,
          capture_jpeg := Except.error () }
        { timelapse_remaining := some 0,
          timelapse_timestamp := 100 }).1.timelapse_timestamp =
      100 + 60 + 1 :=
  (c8_timelapse_reschedules
    { now := 100, rate := 60, sd_available := true,
      capture_jpeg := Except.error () }
    { timelapse_remaining := some 0, timelapse_timestamp := 100 }
    0 rfl (by decide)).1

/-! ### C1 - JPEG zoom divisor mapping -/

/-- C1 counterexample: decoding a valid 320x240 JPEG at zoom level 1
yields a 160x120 raster, not the file's native 320x240 dimensions: the
code applies `scale_factors[zoom] = [1,2,4,8][zoom]`, so zoom 1 divides
by 2, refuting the claimed `{1 -> 1, 2 -> 2, 3 -> 4}` mapping. -/
theorem c1_counterexample :
    load_jpeg_file (some c1_jpeg_decoder) 1 "photo.jpg" =
      some { width := 160, height := 120 } ∧
    ¬ load_jpeg_file (some c1_jpeg_decoder) 1 "photo.jpg" =
        some { width := 320, height := 240 } := by
  decide

/-- C1 (amended): for every valid JPEG file, decoding at zoom level `z`
uses the fixed divisor mapping `{1 -> 2, 2 -> 4, 3 -> 8}` (that is,
divisor `2 ^ z`): zoom 1 yields `floor(native / 2)` per axis and zoom 3
yields `floor(native / 8)` per axis. -/
theorem c1_jpeg_zoom_divisors (dec : JpegDecoderModel) (f : String)
    (w h z : Nat) (hopen : dec.openDims ("/sd/" ++ f) = some (w, h))
    (hdec : dec.decodeOk z = true) (h1 : 1 ≤ z) (h3 : z ≤ 3) :
    load_jpeg_file (some dec) z f =
      some { width := w / 2 ^ z, height := h / 2 ^ z } ∧
    (z = 1 → load_jpeg_file (some dec) z f =
      some { width := w / 2, height := h / 2 }) ∧
    (z = 3 → load_jpeg_file (some dec) z f =
      some { width := w / 8, height := h / 8 }) := by
  interval_cases z <;>
    simp_all [load_jpeg_file, get_current_scale_factor, scale_factors]

/-- C1 witness: decoding the 320x240 file at zoom level 3 yields the
divisor-8 dimensions. -/
theorem c1_jpeg_zoom_divisors_witness :
    load_jpeg_file (some c1_jpeg_decoder) 3 "photo.jpg" =
      some { width := 320 / 2 ^ 3, height := 240 / 2 ^ 3 } :=
  (c1_jpeg_zoom_divisors c1_jpeg_decoder "photo.jpg" 320 240 3
    (by decide) (by decide) (by decide) (by decide)).1

/-! ### C5 - navigation wraparound -/

/-- Remainder of `-1` by a positive integer. -/
theorem neg_one_emod (n : Int) (hn : 0 < n) : (-1 : Int) % n = n - 1 := by
  have h1 := @Int.add_mul_emod_self_left (-1) n 1
  have h2 : (-1 : Int) + n * 1 = n - 1 := by ring
  rw [h2] at h1
  rw [← h1]
  exact Int.emod_eq_of_lt (by omega) (by omega)

/-- One navigation step on a non-empty list with an in-range index is
exactly the modular update `index := (index + direction) % len`. -/
theorem gallery_navigate_step (d : Int) (st : GalleryState)
    (hne : st.gallery_images ≠ []) (hd : d = 1 ∨ d = -1)
    (h0 : 0 ≤ st.gallery_index)
    (hlt : st.gallery_index < (st.gallery_images.length : Int)) :
    gallery_navigate d st =
      { st with gallery_index :=
          (st.gallery_index + d) % (st.gallery_images.length : Int) } := by
  have hn : 0 < (st.gallery_images.length : Int) := by
    have := List.length_pos.mpr hne
    omega
  have hempty : st.gallery_images.isEmpty = false := by
    rcases hgi : st.gallery_images with _ | ⟨a, as⟩
    · exact absurd hgi hne
    · rfl
  unfold gallery_navigate
  rw [hempty]
  simp only [Bool.false_eq_true, if_false]
  rcases hd with hd | hd <;> subst hd
  · by_cases hge : (st.gallery_images.length : Int) ≤ st.gallery_index + 1
    · have heq : st.gallery_index + 1 = (st.gallery_images.length : Int) := by
        omega
      rw [if_neg (by omega), if_pos hge, heq, Int.emod_self]
    · rw [if_neg (by omega), if_neg hge,
        Int.emod_eq_of_lt (by omega) (by omega)]
  · by_cases hz : st.gallery_index + (-1) < 0
    · have heq : st.gallery_index = 0 := by omega
      rw [if_pos hz, heq]
      norm_num
      rw [neg_one_emod _ hn]
    · rw [if_neg hz, if_neg (by omega),
        Int.emod_eq_of_lt (by omega) (by omega)]

/-- Iterating `navigate(+1)` from an in-range index advances the index
by `k` modulo the (unchanged) list length. -/
theorem navigate_iter_index (k : Nat) (st : GalleryState)
    (hne : st.gallery_images ≠ []) (h0 : 0 ≤ st.gallery_index)
    (hlt : st.gallery_index < (st.gallery_images.length : Int)) :
    (navigate_iter k st).gallery_images = st.gallery_images ∧
    (navigate_iter k st).gallery_index =
      (st.gallery_index + k) % (st.gallery_images.length : Int) := by
  induction k generalizing st with
  | zero =>
    refine ⟨rfl, ?_⟩
    simp only [navigate_iter]
    rw [Int.emod_eq_of_lt (by omega) (by omega)]
    omega
  | succ k ih =>
    have hn : 0 < (st.gallery_images.length : Int) := by
      have := List.length_pos.mpr hne
      omega
    have hstep := gallery_navigate_step 1 st hne (Or.inl rfl) h0 hlt
    have hmem0 : 0 ≤ (st.gallery_index + 1) % (st.gallery_images.length : Int) :=
      Int.emod_nonneg _ (by omega)
    have hmem1 : (st.gallery_index + 1) % (st.gallery_images.length : Int) <
        (st.gallery_images.length : Int) :=
      Int.emod_lt_of_pos _ hn
    have hres := ih (gallery_navigate 1 st)
      (by rw [hstep]; exact hne)
      (by rw [hstep]; exact hmem0)
      (by rw [hstep]; exact hmem1)
    refine ⟨?_, ?_⟩
    · show (navigate_iter k (gallery_navigate 1 st)).gallery_images = _
      rw [hres.1, hstep]
    · show (navigate_iter k (gallery_navigate 1 st)).gallery_index = _
      rw [hres.2, hstep]
      simp only []
      rw [Int.emod_add_emod]
      congr 1
      push_cast
      ring

/-- C5: a single `navigate(+1)` or `navigate(-1)` step computes
`index := (index + direction) % len(files)`, and `len(files)`
successive `navigate(+1)` steps return the index to its starting
value. -/
theorem c5_wraparound (st : GalleryState)
    (hne : st.gallery_images ≠ []) (h0 : 0 ≤ st.gallery_index)
    (hlt : st.gallery_index < (st.gallery_images.length : Int)) :
    (navigate_iter st.gallery_images.length st).gallery_index =
      st.gallery_index ∧
    (∀ d, (d = 1 ∨ d = -1) →
      (gallery_navigate d st).gallery_index =
        (st.gallery_index + d) % (st.gallery_images.length : Int)) := by
  refine ⟨?_, ?_⟩
  · rw [(navigate_iter_index st.gallery_images.length st hne h0 hlt).2]
    have h1 := @Int.add_mul_emod_self_left st.gallery_index
      (st.gallery_images.length : Int) 1
    have h2 : st.gallery_index + (st.gallery_images.length : Int) * 1 =
        st.gallery_index + (st.gallery_images.length : Int) := by ring
    rw [h2] at h1
    rw [h1, Int.emod_eq_of_lt h0 hlt]
  · intro d hd
    rw [gallery_navigate_step d st hne hd h0 hlt]

/-- C5 witness: on a three-file list starting at index 1, three
`navigate(+1)` steps return to index 1. -/
theorem c5_wraparound_witness :
    (navigate_iter 3
      { gallery_mode := true, gallery_images := ["a.jpg", "b.jpg", "c.gif"],
        gallery_index := 1, gallery_zoom_level := 1 }).gallery_index = 1 :=
  (c5_wraparound
    { gallery_mode := true, gallery_images := ["a.jpg", "b.jpg", "c.gif"],
      gallery_index := 1, gallery_zoom_level := 1 }
    (by decide) (by decide) (by decide)).1

/-! ### C3 - the GIF recording loop -/

/-- Reaching the first exit point: if `j` satisfies the exit condition
(at least 15 frames and the shutter GPIO reads released, i.e. `true`)
and every check from `i` up to `j` satisfies the continue condition,
then the loop started at `i` with enough fuel stops exactly at `j`. -/
theorem gif_loop_reach (value : Nat → Bool) :
    ∀ (fuel i j : Nat), i ≤ j → j - i ≤ fuel →
      (15 ≤ j ∧ value j = true) →
      (∀ t, i ≤ t → t < j → (t < 15 ∨ value t = false)) →
      gif_loop_go value fuel i = j := by
  intro fuel
  induction fuel with
  | zero =>
    intro i j hij hle _ _
    have hij2 : i = j := by omega
    rw [hij2]
    rfl
  | succ f ih =>
    intro i j hij hle hexit hcont
    by_cases hij2 : i = j
    · subst hij2
      have h15 : ¬ i < 15 := by omega
      simp only [gif_loop_go, h15, hexit.2]
      rfl
    · have hlt : i < j := by omega
      have hstep : gif_loop_go value (f + 1) i = gif_loop_go value f (i + 1) := by
        rcases hcont i (le_refl i) hlt with h | h
        · simp [gif_loop_go, h]
        · simp [gif_loop_go, h]
      rw [hstep]
      exact ih (i + 1) j (by omega) (by omega) hexit
        (fun t ht1 ht2 => hcont t (by omega) ht2)

/-- C3: if the shutter GPIO reads released (`true`, active-low) from
check `k` on and the fuel covers both 15 frames and `k` checks, the
recording loop exits at a point with at least 15 frames captured and
the shutter released, never having exited earlier (the release
condition is re-polled at every check); when the shutter is released
before the minimum frame count (`k ≤ 15`), the loop records exactly 15
frames; and the output file is closed exactly once. -/
theorem c3_gif_recording_loop (value : Nat → Bool) (k fuel : Nat)
    (hrel : ∀ t, k ≤ t → value t = true)
    (hf15 : 15 ≤ fuel) (hfk : k ≤ fuel) :
    (15 ≤ (capture_animated_gif value fuel).frames ∧
      value (capture_animated_gif value fuel).frames = true ∧
      (∀ t, t < (capture_animated_gif value fuel).frames →
        (t < 15 ∨ value t = false))) ∧
    (k ≤ 15 → (capture_animated_gif value fuel).frames = 15) ∧
    (capture_animated_gif value fuel).file_closes = 1 := by
  have hP : ∃ j, 15 ≤ j ∧ value j = true := by
    refine ⟨max 15 k, le_max_left _ _, hrel _ (le_max_right _ _)⟩
  have hfind := Nat.find_spec hP
  have hmin : Nat.find hP ≤ max 15 k :=
    Nat.find_min' hP ⟨le_max_left _ _, hrel _ (le_max_right _ _)⟩
  have hrun : gif_loop_go value fuel 0 = Nat.find hP := by
    apply gif_loop_reach value fuel 0 (Nat.find hP) (Nat.zero_le _)
      (by omega) hfind
    intro t _ ht
    have hnp := Nat.find_min hP ht
    by_cases h15 : t < 15
    · exact Or.inl h15
    · refine Or.inr ?_
      rcases hv : value t with _ | _
      · rfl
      · exact absurd ⟨by omega, hv⟩ hnp
  have hframes : (capture_animated_gif value fuel).frames = Nat.find hP := by
    unfold capture_animated_gif
    rw [hrun]
  refine ⟨⟨?_, ?_, ?_⟩, ?_, rfl⟩
  · rw [hframes]
    exact hfind.1
  · rw [hframes]
    exact hfind.2
  · intro t ht
    rw [hframes] at ht
    have hnp := Nat.find_min hP ht
    by_cases h15 : t < 15
    · exact Or.inl h15
    · refine Or.inr ?_
      rcases hv : value t with _ | _
      · rfl
      · exact absurd ⟨by omega, hv⟩ hnp
  · intro hk15
    rw [hframes]
    have hle : Nat.find hP ≤ 15 :=
      Nat.find_min' hP ⟨le_refl 15, hrel 15 hk15⟩
    omega

/-- C3 witness: shutter held for the first 5 checks then released, with
fuel 20: the loop records exactly 15 frames and the file is closed
once. -/
theorem c3_gif_recording_loop_witness :
    (capture_animated_gif (fun t => decide (5 ≤ t)) 20).frames = 15 ∧
    (capture_animated_gif (fun t => decide (5 ≤ t)) 20).file_closes = 1 :=
  ⟨(c3_gif_recording_loop (fun t => decide (5 ≤ t)) 5 20
      (fun t ht => decide_eq_true ht) (by decide) (by decide)).2.1 (by decide),
   (c3_gif_recording_loop (fun t => decide (5 ≤ t)) 5 20
      (fun t ht => decide_eq_true ht) (by decide) (by decide)).2.2⟩

/-! ### C9 - the Select toggle -/

/-- C9 counterexample: in "LAPS" (Timelapse) capture mode, a tick with
a Select edge does not toggle the gallery on: Select instead cycles the
timelapse submode, so the gallery state does not flip. -/
theorem c9_counterexample :
    (handle_all_buttons selectOnlyButtons "LAPS" true ["a.jpg"]
        initialGalleryState).1.gallery_mode = false ∧
    initialGalleryState.gallery_mode = false := by
  decide

/-- C9 (amended): on a tick with a Select edge, when the capture mode
is not "LAPS": an active gallery is toggled off, and an inactive
gallery is toggled on exactly when the storage scan finds at least one
eligible file (with an empty scan `enter_gallery_mode` immediately
exits again, so the state stays off).  In "LAPS" mode Select cycles the
timelapse submode and the gallery state does not change. -/
theorem c9_select_toggle (btns : Buttons) (mode_text : String) (sd : Bool)
    (listing : List String) (st : GalleryState)
    (hsel : btns.select = true) (hmode : mode_text ≠ "LAPS") :
    (st.gallery_mode = true →
      (handle_all_buttons btns mode_text sd listing st).1.gallery_mode =
        false) ∧
    (st.gallery_mode = false →
      ((handle_all_buttons btns mode_text sd listing st).1.gallery_mode =
          true ↔
        scan_gallery_images sd listing ≠ [])) := by
  constructor
  · intro hgm
    simp only [handle_all_buttons, hgm, if_true]
    by_cases hsd : sd = false
    · simp [handle_gallery_buttons, hsd, exit_gallery_mode]
    · simp only [handle_gallery_buttons, hsd, if_false, hsel, if_true,
        ite_true]
      split_ifs <;>
        simp [gallery_zoom_in_gallery_mode, gallery_zoom_out_gallery_mode,
          gallery_navigate_gallery_mode, exit_gallery_mode,
          handle_select_button_gallery_mode, hmode, hgm]
  · intro hgm
    simp only [handle_all_buttons, hgm, Bool.false_eq_true, if_false,
      handle_camera_buttons, hsel, if_true, ite_true,
      handle_select_button_gallery_mode, hmode]
    cases hscan : scan_gallery_images sd listing with
    | nil => simp [hgm, hscan]
    | cons a as => simp [hgm, hscan]

/-- C9 witness: with one eligible file and capture mode "JPEG", a
Select edge from the inactive state toggles the gallery on. -/
theorem c9_select_toggle_witness :
    (handle_all_buttons selectOnlyButtons "JPEG" true ["a.jpg"]
        initialGalleryState).1.gallery_mode = true ↔
      scan_gallery_images true ["a.jpg"] ≠ [] :=
  (c9_select_toggle selectOnlyButtons "JPEG" true ["a.jpg"]
    initialGalleryState rfl (by decide)).2 rfl

/-! ### C10 - decoder unavailable: no crash, metadata fallback -/

/-- C10: if the JPEG decoder failed to initialize (`jpeg_decoder` is
`None`), then `load_jpeg_file` returns no bitmap for every filename and
every zoom level, and displaying a gallery entry whose (lowercased)
name ends in `.jpg` or `.jpeg` falls back to the metadata-only
information screen instead of crashing the control loop. -/
theorem c10_decoder_unavailable (env : PipelineEnv) (st : GalleryState)
    (hdec : env.jpeg_decoder = none)
    (hne : st.gallery_images ≠ []) (_h0 : 0 ≤ st.gallery_index)
    (hlt : st.gallery_index < (st.gallery_images.length : Int))
    (hjpeg :
      pyEndsWith (pyLower (pyIndex st.gallery_images st.gallery_index))
        ".jpg" = true ∨
      pyEndsWith (pyLower (pyIndex st.gallery_images st.gallery_index))
        ".jpeg" = true) :
    (∀ f zl, load_jpeg_file none zl f = none) ∧
    display_current_image env st =
      DisplayOutcome.fallback (pyIndex st.gallery_images st.gallery_index) := by
  refine ⟨fun f zl => rfl, ?_⟩
  have hempty : st.gallery_images.isEmpty = false := by
    rcases hgi : st.gallery_images with _ | ⟨a, as⟩
    · exact absurd hgi hne
    · rfl
  have hguard : ¬ (st.gallery_images.isEmpty = true ∨
      (st.gallery_images.length : Int) ≤ st.gallery_index) := by
    rw [hempty]
    simp only [Bool.false_eq_true, false_or, not_le]
    omega
  unfold display_current_image
  rw [if_neg hguard]
  unfold load_image_file
  rcases hjpeg with hj | hj <;>
    simp [hj, load_jpeg_file, hdec]

/-- C10 witness: with no decoder, displaying the single gallery file
`photo.jpg` yields the metadata fallback. -/
theorem c10_decoder_unavailable_witness :
    display_current_image
      { jpeg_decoder := none, gif_load := fun _ => none }
      { gallery_mode := true, gallery_images := ["photo.jpg"],
        gallery_index := 0, gallery_zoom_level := 1 } =
      DisplayOutcome.fallback (pyIndex ["photo.jpg"] 0) :=
  (c10_decoder_unavailable
    { jpeg_decoder := none, gif_load := fun _ => none }
    { gallery_mode := true, gallery_images := ["photo.jpg"],
      gallery_index := 0, gallery_zoom_level := 1 }
    rfl (by decide) (by decide) (by decide) (Or.inl (by decide))).2

end AdafruitCamera
